import Mathlib

/-!
Verification of the validator CLI dispatch layer
(`crates/validator/src/cli/handlers/mod.rs`).

The module under verification routes a parsed `Command` to collaborator
handlers, bootstraps a rental session (config → blockchain client →
identity → persistence), and provides configuration load/validate helpers.

Collaborators (service/database/rental handlers, `ValidatorConfig`
file loading, `bittensor::Service`, `Hotkey::new`, `SimplePersistence::new`,
`config.validate()` / `config.warnings()`, filesystem existence checks)
live outside this module; they are modelled as oracle fields of an `Env`
record, and every collaborator invocation is recorded in an explicit call
trace so "never invokes" and ordering properties are expressible.
-/

deriving instance DecidableEq for Except

namespace Basilica

/-- Nested `bittensor.common` configuration: network name and subnet id
(the fields of `ValidatorConfig` read by the module under verification). -/
structure CommonConfig where
  netuid : Nat
  network : String
deriving DecidableEq, Repr

/-- `config.bittensor` as read by the handlers: only the `common` part. -/
structure BittensorConfig where
  common : CommonConfig
deriving DecidableEq, Repr

/-- `config.emission`: burn address id, burn percentage (a numeric value,
modelled over ℚ), weight-set interval in blocks. -/
structure EmissionConfig where
  burn_uid : Nat
  burn_percentage : ℚ
deriving DecidableEq, Repr

/-- `config.database`: the database connection URL. -/
structure DatabaseConfig where
  url : String
deriving DecidableEq, Repr

/-- The slice of `ValidatorConfig` consumed by the handlers module:
emission parameters, bittensor network parameters, database URL, and the
weight-set interval. -/
structure ValidatorConfig where
  emission : EmissionConfig
  weight_set_interval_blocks : Nat
  bittensor : BittensorConfig
  database : DatabaseConfig
deriving DecidableEq, Repr

/-- The parsed CLI `Command` enum: one variant per command kind, each with
its own argument payload (payloads of the retired variants are opaque to
the dispatcher, modelled as a `String`). -/
inductive Command where
  | Start (config : Option String)
  | Stop
  | Status
  | GenConfig (output : String)
  | Connect (args : String)
  | Verify (args : String)
  | VerifyLegacy (args : String)
  | Database (action : String)
  | Rental (action : String)
deriving DecidableEq, Repr

/-- One collaborator invocation, recorded in the order the dispatcher
performs it.  Used to state "never invokes X" and ordering properties. -/
inductive Call where
  | start (config : Option String) (local_test : Bool)
  | stop
  | status
  | gen_config (output : String)
  | database (action : String)
  | load_from_file (path : String)
  | service_new (c : CommonConfig)
  | hotkey_new (address : String)
  | persistence_new (url : String) (hotkey : String)
  | rental (action : String)
deriving DecidableEq, Repr

/-- Oracles for every external collaborator the handlers module calls.
`Svc` is the opaque `bittensor::Service` session type and `Persist` the
opaque `SimplePersistence` handle type; errors are `anyhow` message
strings.  A `Hotkey` is carried as its canonical ss58 string (its
`to_string()` form, which is what the module passes on). -/
structure Env (Svc Persist : Type) where
  handle_start : Option String → Bool → Except String Unit
  handle_stop : Except String Unit
  handle_status : Except String Unit
  handle_gen_config : String → Except String Unit
  handle_database : String → Except String Unit
  load_from_file : String → Except String ValidatorConfig
  service_new : CommonConfig → Except String Svc
  get_account_id : Svc → String
  hotkey_new : String → Except String String
  persistence_new : String → String → Except String Persist
  handle_rental_command : String → String → Persist → Except String Unit
  validate : ValidatorConfig → Except String Unit
  warnings : ValidatorConfig → List String
  fileExists : String → Bool

/-- Fixed failure message of the retired `Connect` and `Verify` variants. -/
def removedHardwareMsg : String :=
  "Hardware validation commands have been removed. Use the verification engine API instead."

/-- Fixed failure message of the retired `VerifyLegacy` variant. -/
def removedLegacyMsg : String :=
  "Legacy validation commands have been removed. Use the verification engine API instead."

/-- Failure message when a rental command is dispatched without a global
config path. -/
def rentalConfigRequiredMsg : String := "Configuration required for rental commands"

/-- `CommandHandler::execute_with_context`: routes one command, returning
the `Result` together with the ordered trace of collaborator calls made. -/
def execute_with_context {Svc Persist : Type} (env : Env Svc Persist)
    (command : Command) (global_config : Option String) (local_test : Bool) :
    Except String Unit × List Call :=
  match command with
  | .Start config =>
      (env.handle_start (global_config.or config) local_test,
        [.start (global_config.or config) local_test])
  | .Stop => (env.handle_stop, [.stop])
  | .Status => (env.handle_status, [.status])
  | .GenConfig output => (env.handle_gen_config output, [.gen_config output])
  | .Connect _ => (.error removedHardwareMsg, [])
  | .Verify _ => (.error removedHardwareMsg, [])
  | .VerifyLegacy _ => (.error removedLegacyMsg, [])
  | .Database action => (env.handle_database action, [.database action])
  | .Rental action =>
      match global_config with
      | none => (.error rentalConfigRequiredMsg, [])
      | some config_path =>
        match env.load_from_file config_path with
        | .error e => (.error e, [.load_from_file config_path])
        | .ok config =>
          match env.service_new config.bittensor.common with
          | .error e =>
              (.error e,
                [.load_from_file config_path, .service_new config.bittensor.common])
          | .ok bittensor_service =>
            let ss58_address := env.get_account_id bittensor_service
            match env.hotkey_new ss58_address with
            | .error e =>
                (.error ("Failed to create hotkey: " ++ e),
                  [.load_from_file config_path,
                   .service_new config.bittensor.common,
                   .hotkey_new ss58_address])
            | .ok validator_hotkey =>
              match env.persistence_new config.database.url validator_hotkey with
              | .error e =>
                  (.error e,
                    [.load_from_file config_path,
                     .service_new config.bittensor.common,
                     .hotkey_new ss58_address,
                     .persistence_new config.database.url validator_hotkey])
              | .ok persistence =>
                  (env.handle_rental_command action validator_hotkey persistence,
                    [.load_from_file config_path,
                     .service_new config.bittensor.common,
                     .hotkey_new ss58_address,
                     .persistence_new config.database.url validator_hotkey,
                     .rental action])

/-- Rust `{:.2}` fixed-point rendering of the burn percentage.
Modelled from the spec: the percentage field's concrete float type lives
outside this module, so the value is carried as an exact rational and
`{:.2}` is modelled as rounding to the nearest hundredth (the computed
integer is `⌊100q + 1/2⌋`, expressed by floor division on numerator and
denominator) followed by two-digit decimal rendering. -/
def formatFixed2 (q : ℚ) : String :=
  let n : Int := Int.fdiv (200 * q.num + q.den) (2 * q.den)
  let sign := if n < 0 then "-" else ""
  let m := n.natAbs
  let ip := m / 100
  let fp := m % 100
  sign ++ toString ip ++ "." ++ (if fp < 10 then "0" else "") ++ toString fp

/-- The load-summary line logged by `HandlerUtils::load_config` on success
(the `tracing::info!` format string with its five interpolated values). -/
def loadSummaryLine (config : ValidatorConfig) : String :=
  "Configuration loaded: " ++ "burn_uid=" ++ toString config.emission.burn_uid
    ++ ", " ++ "burn_percentage=" ++ formatFixed2 config.emission.burn_percentage ++ "%"
    ++ ", " ++ "weight_interval_blocks=" ++ toString config.weight_set_interval_blocks
    ++ ", " ++ "netuid=" ++ toString config.bittensor.common.netuid
    ++ ", " ++ "network=" ++ config.bittensor.common.network

/-- Failure message of `HandlerUtils::load_config` when no path is given. -/
def configRequiredMsg : String :=
  "Configuration file path is required for validator operation"

/-- `HandlerUtils::load_config`: loads a config from an optional path,
returning the `Result` and the list of log lines emitted. -/
def load_config {Svc Persist : Type} (env : Env Svc Persist)
    (config_path : Option String) : Except String ValidatorConfig × List String :=
  match config_path with
  | some path =>
      if env.fileExists path then
        match env.load_from_file path with
        | .error e => (.error e, ["Loading configuration from: " ++ path])
        | .ok config =>
            (.ok config,
              ["Loading configuration from: " ++ path, loadSummaryLine config])
      else
        (.error ("Configuration file not found: " ++ path), [])
  | none => (.error configRequiredMsg, [])

/-- `HandlerUtils::print_success`: the line written for a success notice. -/
def print_success (message : String) : String := "[SUCCESS] " ++ message

/-- `HandlerUtils::print_error`: the line written for an error notice. -/
def print_error (message : String) : String := "[ERROR] " ++ message

/-- `HandlerUtils::print_info`: the line written for an info notice. -/
def print_info (message : String) : String := "[INFO] " ++ message

/-- `HandlerUtils::print_warning`: the line written for a warning notice. -/
def print_warning (message : String) : String := "[WARNING] " ++ message

/-- `HandlerUtils::validate_config`: validates a config, returning the
`Result` and the warning lines printed. -/
def validate_config {Svc Persist : Type} (env : Env Svc Persist)
    (config : ValidatorConfig) : Except String Unit × List String :=
  match env.validate config with
  | .error e => (.error ("Configuration validation failed: " ++ e), [])
  | .ok _ =>
      let warnings := env.warnings config
      let printed :=
        if warnings.isEmpty then []
        else warnings.map fun warning =>
          print_warning ("Configuration warning: " ++ warning)
      (.ok (), printed)

/-- `sub` occurs contiguously inside `s`. -/
def strContains (s sub : String) : Prop := ∃ a b, s = a ++ sub ++ b

/-- A sample configuration used by concrete witnesses. -/
def cfg0 : ValidatorConfig :=
  { emission := { burn_uid := 7, burn_percentage := mkRat 25 2 }
    weight_set_interval_blocks := 360
    bittensor := { common := { netuid := 3, network := "finney" } }
    database := { url := "sqlite://db" } }

/-- A concrete all-succeeding environment used by witnesses. -/
def envOk : Env Unit Unit :=
  { handle_start := fun _ _ => .ok ()
    handle_stop := .ok ()
    handle_status := .ok ()
    handle_gen_config := fun _ => .ok ()
    handle_database := fun _ => .ok ()
    load_from_file := fun _ => .ok cfg0
    service_new := fun _ => .ok ()
    get_account_id := fun _ => "5FHneW46xGXgs5mUiveU4sbTyGBzmstUspZC92UhjJM694ty"
    hotkey_new := fun s => .ok s
    persistence_new := fun _ _ => .ok ()
    handle_rental_command := fun _ _ _ => .ok ()
    validate := fun _ => .ok ()
    warnings := fun _ => ["w1", "w2"]
    fileExists := fun _ => true }

/-- A concrete environment whose hotkey validation fails. -/
def envBadHotkey : Env Unit Unit :=
  { envOk with hotkey_new := fun _ => .error "invalid ss58" }

/-- A concrete environment whose validation fails and whose files are
missing. -/
def envBad : Env Unit Unit :=
  { envOk with
    validate := fun _ => .error "netuid out of range"
    fileExists := fun _ => false }

/-- Claim C1: for every retired command variant (`Connect`, `Verify`,
`VerifyLegacy`) and every argument payload, dispatch returns a
removed-feature error whose message names the removed capability and
points to "the verification engine API", and invokes no collaborator
(the call trace is empty). -/
theorem retired_commands_removed_feature {Svc Persist : Type}
    (env : Env Svc Persist) (args : String) (global_config : Option String)
    (local_test : Bool) :
    execute_with_context env (.Connect args) global_config local_test =
      (.error removedHardwareMsg, []) ∧
    execute_with_context env (.Verify args) global_config local_test =
      (.error removedHardwareMsg, []) ∧
    execute_with_context env (.VerifyLegacy args) global_config local_test =
      (.error removedLegacyMsg, []) ∧
    strContains removedHardwareMsg "Hardware validation commands" ∧
    strContains removedLegacyMsg "Legacy validation commands" ∧
    strContains removedHardwareMsg "the verification engine API" ∧
    strContains removedLegacyMsg "the verification engine API" := by
  refine ⟨rfl, rfl, rfl,
    ⟨"", " have been removed. Use the verification engine API instead.", rfl⟩,
    ⟨"", " have been removed. Use the verification engine API instead.", rfl⟩,
    ⟨"Hardware validation commands have been removed. Use ", " instead.", rfl⟩,
    ⟨"Legacy validation commands have been removed. Use ", " instead.", rfl⟩⟩

/-- Claim C2: for every `Rental` dispatch with a config path, the rental
collaborator is invoked only if config load, blockchain client
construction, identity construction and persistence open all succeeded,
in that order (the trace lists them in order); any failure in that chain
makes dispatch return the first error with the rental collaborator never
invoked. -/
theorem rental_bootstrap_chain {Svc Persist : Type} (env : Env Svc Persist)
    (action path : String) (local_test : Bool) :
    (∀ e, env.load_from_file path = .error e →
      execute_with_context env (.Rental action) (some path) local_test =
        (.error e, [.load_from_file path])) ∧
    (∀ config e, env.load_from_file path = .ok config →
      env.service_new config.bittensor.common = .error e →
      execute_with_context env (.Rental action) (some path) local_test =
        (.error e,
          [.load_from_file path, .service_new config.bittensor.common])) ∧
    (∀ config svc e, env.load_from_file path = .ok config →
      env.service_new config.bittensor.common = .ok svc →
      env.hotkey_new (env.get_account_id svc) = .error e →
      execute_with_context env (.Rental action) (some path) local_test =
        (.error ("Failed to create hotkey: " ++ e),
          [.load_from_file path, .service_new config.bittensor.common,
           .hotkey_new (env.get_account_id svc)])) ∧
    (∀ config svc hotkey e, env.load_from_file path = .ok config →
      env.service_new config.bittensor.common = .ok svc →
      env.hotkey_new (env.get_account_id svc) = .ok hotkey →
      env.persistence_new config.database.url hotkey = .error e →
      execute_with_context env (.Rental action) (some path) local_test =
        (.error e,
          [.load_from_file path, .service_new config.bittensor.common,
           .hotkey_new (env.get_account_id svc),
           .persistence_new config.database.url hotkey])) ∧
    (∀ config svc hotkey persistence, env.load_from_file path = .ok config →
      env.service_new config.bittensor.common = .ok svc →
      env.hotkey_new (env.get_account_id svc) = .ok hotkey →
      env.persistence_new config.database.url hotkey = .ok persistence →
      execute_with_context env (.Rental action) (some path) local_test =
        (env.handle_rental_command action hotkey persistence,
          [.load_from_file path, .service_new config.bittensor.common,
           .hotkey_new (env.get_account_id svc),
           .persistence_new config.database.url hotkey, .rental action])) ∧
    (Call.rental action ∈
        (execute_with_context env (.Rental action) (some path) local_test).2 →
      ∃ config svc hotkey persistence,
        env.load_from_file path = .ok config ∧
        env.service_new config.bittensor.common = .ok svc ∧
        env.hotkey_new (env.get_account_id svc) = .ok hotkey ∧
        env.persistence_new config.database.url hotkey = .ok persistence) := by
  refine ⟨?_, ?_, ?_, ?_, ?_, ?_⟩
  · intro e h1
    simp [execute_with_context, h1]
  · intro config e h1 h2
    simp [execute_with_context, h1, h2]
  · intro config svc e h1 h2 h3
    simp [execute_with_context, h1, h2, h3]
  · intro config svc hotkey e h1 h2 h3 h4
    simp [execute_with_context, h1, h2, h3, h4]
  · intro config svc hotkey persistence h1 h2 h3 h4
    simp [execute_with_context, h1, h2, h3, h4]
  · intro hmem
    cases h1 : env.load_from_file path with
    | error e => simp [execute_with_context, h1] at hmem
    | ok config =>
      cases h2 : env.service_new config.bittensor.common with
      | error e => simp [execute_with_context, h1, h2] at hmem
      | ok svc =>
        cases h3 : env.hotkey_new (env.get_account_id svc) with
        | error e => simp [execute_with_context, h1, h2, h3] at hmem
        | ok hotkey =>
          cases h4 : env.persistence_new config.database.url hotkey with
          | error e => simp [execute_with_context, h1, h2, h3, h4] at hmem
          | ok persistence => exact ⟨config, svc, hotkey, persistence, rfl, h2, h3, h4⟩

/-- Witness for claim C2: on an all-succeeding environment, the rental
chain runs to completion with the full ordered trace. -/
theorem rental_bootstrap_chain_witness :
    execute_with_context envOk (.Rental "list") (some "v.toml") false =
      (.ok (),
        [.load_from_file "v.toml", .service_new cfg0.bittensor.common,
         .hotkey_new "5FHneW46xGXgs5mUiveU4sbTyGBzmstUspZC92UhjJM694ty",
         .persistence_new "sqlite://db"
           "5FHneW46xGXgs5mUiveU4sbTyGBzmstUspZC92UhjJM694ty",
         .rental "list"]) :=
  (rental_bootstrap_chain envOk "list" "v.toml" false).2.2.2.2.1 cfg0 ()
    "5FHneW46xGXgs5mUiveU4sbTyGBzmstUspZC92UhjJM694ty" () rfl rfl rfl rfl

/-- Claim C3: `Start` forwards the global config path when present,
otherwise the command's own `config` field, together with the local-test
flag; in particular when both are supplied the global path wins. -/
theorem start_prefers_global_config {Svc Persist : Type}
    (env : Env Svc Persist) (config : Option String)
    (global_config : Option String) (local_test : Bool) :
    execute_with_context env (.Start config) global_config local_test =
      (env.handle_start (global_config.or config) local_test,
        [.start (global_config.or config) local_test]) ∧
    (∀ p, execute_with_context env (.Start config) (some p) local_test =
      (env.handle_start (some p) local_test, [.start (some p) local_test])) ∧
    execute_with_context env (.Start config) none local_test =
      (env.handle_start config local_test, [.start config local_test]) :=
  ⟨rfl, fun _ => rfl, rfl⟩

/-- Claim C4: a `Rental` dispatch with no global config path fails with
the configuration-required error and performs no collaborator call at all
(so no client, identity or persistence construction is attempted). -/
theorem rental_requires_global_config {Svc Persist : Type}
    (env : Env Svc Persist) (action : String) (local_test : Bool) :
    execute_with_context env (.Rental action) none local_test =
      (.error rentalConfigRequiredMsg, []) := rfl

/-- Claim C5: if the derived address string fails hotkey validation, the
`Rental` dispatch fails with an error wrapping the validation cause
("Failed to create hotkey: …") and the persistence-open step is never
invoked. -/
theorem rental_invalid_identity_stops_before_persistence
    {Svc Persist : Type} (env : Env Svc Persist) (action path : String)
    (local_test : Bool) (config : ValidatorConfig) (svc : Svc) (e : String)
    (h1 : env.load_from_file path = .ok config)
    (h2 : env.service_new config.bittensor.common = .ok svc)
    (h3 : env.hotkey_new (env.get_account_id svc) = .error e) :
    (execute_with_context env (.Rental action) (some path) local_test).1 =
      .error ("Failed to create hotkey: " ++ e) ∧
    ∀ url s, Call.persistence_new url s ∉
      (execute_with_context env (.Rental action) (some path) local_test).2 := by
  simp [execute_with_context, h1, h2, h3]

/-- Witness for claim C5: a concrete environment whose hotkey validation
fails, evaluated at a concrete rental dispatch. -/
theorem rental_invalid_identity_witness :
    (execute_with_context envBadHotkey (.Rental "list") (some "v.toml") false).1 =
      .error ("Failed to create hotkey: " ++ "invalid ss58") ∧
    ∀ url s, Call.persistence_new url s ∉
      (execute_with_context envBadHotkey (.Rental "list") (some "v.toml") false).2 :=
  rental_invalid_identity_stops_before_persistence envBadHotkey "list" "v.toml"
    false cfg0 () "invalid ss58" rfl rfl rfl

/-- Claim C6: `load_config` with no path fails with the
configuration-required error; with a path to a missing file it fails with
the file-not-found error; the two errors are distinct for every path. -/
theorem load_config_missing_path_vs_missing_file {Svc Persist : Type}
    (env : Env Svc Persist) :
    load_config env none = (.error configRequiredMsg, []) ∧
    (∀ path, env.fileExists path = false →
      load_config env (some path) =
        (.error ("Configuration file not found: " ++ path), [])) ∧
    (∀ path, "Configuration file not found: " ++ path ≠ configRequiredMsg) := by
  refine ⟨rfl, fun path h => by simp [load_config, h], fun path h => ?_⟩
  have h2 := congrArg (fun s => s.data.take 30) h
  simp only [String.data_append] at h2
  have h3 : ("Configuration file not found: ".data ++ path.data).take 30 =
      "Configuration file not found: ".data := by
    have hlen : "Configuration file not found: ".data.length = 30 := by decide
    rw [← hlen, List.take_left]
  rw [h3] at h2
  exact absurd h2 (by decide)

/-- Witness for claim C6: both failures evaluated on a concrete
environment with no files present. -/
theorem load_config_missing_witness :
    load_config envBad none = (.error configRequiredMsg, []) ∧
    load_config envBad (some "missing.toml") =
      (.error ("Configuration file not found: " ++ "missing.toml"), []) :=
  ⟨(load_config_missing_path_vs_missing_file envBad).1,
   (load_config_missing_path_vs_missing_file envBad).2.1 "missing.toml" rfl⟩

/-- Claim C7: when validation succeeds, `validate_config` returns success
and prints exactly as many warning lines as the config has warnings;
warnings never cause the call to fail. -/
theorem validate_config_warning_count {Svc Persist : Type}
    (env : Env Svc Persist) (config : ValidatorConfig)
    (h : env.validate config = .ok ()) :
    (validate_config env config).1 = .ok () ∧
    (validate_config env config).2.length = (env.warnings config).length := by
  refine ⟨by simp [validate_config, h], ?_⟩
  by_cases hw : (env.warnings config).isEmpty
  · simp [validate_config, h, hw, List.isEmpty_iff.mp hw]
  · simp [validate_config, h, hw]

/-- Witness for claim C7: an environment reporting two warnings yields
success and exactly two printed lines. -/
theorem validate_config_warning_count_witness :
    (validate_config envOk cfg0).1 = .ok () ∧
    (validate_config envOk cfg0).2.length = (envOk.warnings cfg0).length :=
  validate_config_warning_count envOk cfg0 rfl

/-- Claim C8: on a successful load, `load_config` logs a summary line
containing the burn address id, the burn percentage rendered to two
decimal places, the weight-set interval in blocks, the subnet id, and the
network name. -/
theorem load_config_success_summary {Svc Persist : Type}
    (env : Env Svc Persist) (path : String) (config : ValidatorConfig)
    (h1 : env.fileExists path = true)
    (h2 : env.load_from_file path = .ok config) :
    load_config env (some path) =
      (.ok config,
        ["Loading configuration from: " ++ path, loadSummaryLine config]) ∧
    strContains (loadSummaryLine config)
      ("burn_uid=" ++ toString config.emission.burn_uid) ∧
    strContains (loadSummaryLine config)
      ("burn_percentage=" ++ formatFixed2 config.emission.burn_percentage ++ "%") ∧
    strContains (loadSummaryLine config)
      ("weight_interval_blocks=" ++ toString config.weight_set_interval_blocks) ∧
    strContains (loadSummaryLine config)
      ("netuid=" ++ toString config.bittensor.common.netuid) ∧
    strContains (loadSummaryLine config)
      ("network=" ++ config.bittensor.common.network) := by
  refine ⟨by simp [load_config, h1, h2], ?_, ?_, ?_, ?_, ?_⟩
  · exact ⟨"Configuration loaded: ",
      ", " ++ "burn_percentage=" ++ formatFixed2 config.emission.burn_percentage
        ++ "%" ++ ", " ++ "weight_interval_blocks="
        ++ toString config.weight_set_interval_blocks ++ ", " ++ "netuid="
        ++ toString config.bittensor.common.netuid ++ ", " ++ "network="
        ++ config.bittensor.common.network,
      by simp only [loadSummaryLine, String.append_assoc]⟩
  · exact ⟨"Configuration loaded: " ++ "burn_uid="
        ++ toString config.emission.burn_uid ++ ", ",
      ", " ++ "weight_interval_blocks="
        ++ toString config.weight_set_interval_blocks ++ ", " ++ "netuid="
        ++ toString config.bittensor.common.netuid ++ ", " ++ "network="
        ++ config.bittensor.common.network,
      by simp only [loadSummaryLine, String.append_assoc]⟩
  · exact ⟨"Configuration loaded: " ++ "burn_uid="
        ++ toString config.emission.burn_uid ++ ", " ++ "burn_percentage="
        ++ formatFixed2 config.emission.burn_percentage ++ "%" ++ ", ",
      ", " ++ "netuid=" ++ toString config.bittensor.common.netuid ++ ", "
        ++ "network=" ++ config.bittensor.common.network,
      by simp only [loadSummaryLine, String.append_assoc]⟩
  · exact ⟨"Configuration loaded: " ++ "burn_uid="
        ++ toString config.emission.burn_uid ++ ", " ++ "burn_percentage="
        ++ formatFixed2 config.emission.burn_percentage ++ "%" ++ ", "
        ++ "weight_interval_blocks="
        ++ toString config.weight_set_interval_blocks ++ ", ",
      ", " ++ "network=" ++ config.bittensor.common.network,
      by simp only [loadSummaryLine, String.append_assoc]⟩
  · exact ⟨"Configuration loaded: " ++ "burn_uid="
        ++ toString config.emission.burn_uid ++ ", " ++ "burn_percentage="
        ++ formatFixed2 config.emission.burn_percentage ++ "%" ++ ", "
        ++ "weight_interval_blocks="
        ++ toString config.weight_set_interval_blocks ++ ", " ++ "netuid="
        ++ toString config.bittensor.common.netuid ++ ", ",
      "",
      by simp only [loadSummaryLine, String.append_assoc, String.append_empty]⟩

/-- Witness for claim C8: the sample config (burn_uid=7,
burn_percentage=12.5, weight_set_interval_blocks=360, netuid=3,
network="finney") produces the exact summary line with "12.50%". -/
theorem load_config_success_summary_witness :
    load_config envOk (some "v.toml") =
      (.ok cfg0,
        ["Loading configuration from: v.toml",
         "Configuration loaded: burn_uid=7, burn_percentage=12.50%, weight_interval_blocks=360, netuid=3, network=finney"]) := by
  have h := (load_config_success_summary envOk "v.toml" cfg0 rfl rfl).1
  rw [h]
  decide

/-- Counterexample to claim C9 as stated: the retired variants do not all
carry the same fixed message; `Connect` reports the hardware-validation
message while `VerifyLegacy` reports a different legacy-validation
message. -/
theorem retired_messages_not_identical_cex :
    execute_with_context envOk (.Connect "x") none false =
      (.error removedHardwareMsg, []) ∧
    execute_with_context envOk (.VerifyLegacy "x") none false =
      (.error removedLegacyMsg, []) ∧
    removedHardwareMsg ≠ removedLegacyMsg :=
  ⟨rfl, rfl, by decide⟩

/-- Claim C9 (amended): `Connect` and `Verify` carry the same fixed
message for all payloads, while `VerifyLegacy` carries a different fixed
message, so the failure payload distinguishes the legacy variant from the
other two (which remain mutually indistinguishable). -/
theorem retired_messages_amended {Svc Persist : Type} (env : Env Svc Persist)
    (a b : String) (g1 g2 : Option String) (l1 l2 : Bool) :
    (execute_with_context env (.Connect a) g1 l1).1 =
      (execute_with_context env (.Verify b) g2 l2).1 ∧
    (execute_with_context env (.Connect a) g1 l1).1 ≠
      (execute_with_context env (.VerifyLegacy b) g2 l2).1 := by
  refine ⟨rfl, fun h => ?_⟩
  simp [execute_with_context, removedHardwareMsg, removedLegacyMsg] at h

/-- Witness for claim C9 (amended): concrete `Connect` and `Verify`
dispatches yield identical results. -/
theorem retired_messages_amended_witness :
    (execute_with_context envOk (.Connect "x") none false).1 =
      (execute_with_context envOk (.Verify "y") (some "c") true).1 :=
  (retired_messages_amended envOk "x" "y" none (some "c") false true).1

/-- Claim C10: when validation fails, `validate_config` returns the
wrapped validation error and prints zero warning lines. -/
theorem validate_config_failure_no_warnings {Svc Persist : Type}
    (env : Env Svc Persist) (config : ValidatorConfig) (e : String)
    (h : env.validate config = .error e) :
    validate_config env config =
      (.error ("Configuration validation failed: " ++ e), []) := by
  simp [validate_config, h]

/-- Witness for claim C10: a concrete failing validation yields the
wrapped error and an empty warning channel. -/
theorem validate_config_failure_witness :
    validate_config envBad cfg0 =
      (.error ("Configuration validation failed: " ++ "netuid out of range"), []) :=
  validate_config_failure_no_warnings envBad cfg0 "netuid out of range" rfl

end Basilica
